import Mathlib

/-!
Verification of the chat-frontend client core of the MetricsAi repository
(`src/services/chat-frontend/src/components/ChatInterface.js`).

The JavaScript component keeps React state
`(messages, inputMessage, isConnected, isLoading, quickQueries, sessionId)`
and mutates it in a handful of handlers:

* `socket.on('connect')` / `socket.on('disconnect')` toggle `isConnected`;
* `socket.on('response', data)` clears `isLoading` and appends an
  assistant message built from the payload;
* `socket.on('error', data)` clears `isLoading` and appends an error
  message whose content is `"Error: " + data.error`;
* `sendMessage(message)` returns early when `!message.trim() || !isConnected`,
  otherwise appends a user message, sets `isLoading`, emits a `message`
  socket event and clears the input;
* `loadQuickQueries` fetches `/quick-queries` and on success stores the
  array, on failure only logs (the `catch` swallows the exception);
* `quickQueryCategories` groups `quickQueries` by `category` with a
  `reduce` into a plain object (insertion-ordered string keys).

The embedding below renders each of these as a pure function on an
explicit state record.  `Date.now()` readings are passed in as an explicit
`now : Nat` argument; plain-object insertion order is modelled by an
association list.
-/

namespace ChatInterface

/-- Kind of a chat message: the `type` field of the JS message objects,
a closed set `'user' | 'assistant' | 'error'`. -/
inductive MessageKind where
  | user
  | assistant
  | error
deriving DecidableEq, Repr

/-- A timestamp as the JS code constructs it: `new Date(str)` for payload
timestamps, `new Date()` (current clock) for user messages. -/
inductive Timestamp where
  | fromStr (s : String)
  | atNow (n : Nat)
deriving DecidableEq, Repr

/-- One named sub-section of assistant metadata (`{count: ...}` in JS). -/
structure SectionCount where
  count : Nat
deriving DecidableEq, Repr

/-- The optional `metadata` record of a `response` payload: up to three
sub-sections (`metrics`, `logs`, `traces`). -/
structure MessageMetadata where
  metrics : Option SectionCount
  logs : Option SectionCount
  traces : Option SectionCount
deriving DecidableEq, Repr

/-- A message in the Message Log.  Field `kind` embeds the JS field
`type` (a Lean keyword).  `metadata`/`suggestions` are `none` exactly
when the JS object carries no such key. -/
structure Message where
  id : Nat
  kind : MessageKind
  content : String
  timestamp : Timestamp
  metadata : Option MessageMetadata
  suggestions : Option (List String)
deriving DecidableEq, Repr

/-- A quick query as returned by `GET /quick-queries`. -/
structure QuickQuery where
  query : String
  category : String
  description : String
deriving DecidableEq, Repr

/-- The React component state of `ChatInterface`. -/
structure ClientState where
  messages : List Message
  inputMessage : String
  isConnected : Bool
  isLoading : Bool
  quickQueries : List QuickQuery
  sessionId : String
deriving DecidableEq, Repr

/-- Initial component state: `useState([])`, `useState('')`,
`useState(false)`, `useState(false)`, `useState([])`, and
`` sessionId = `session_${Date.now()}` `` where `startTime` is the
`Date.now()` reading at client startup. -/
def initState (startTime : Nat) : ClientState :=
  { messages := []
    inputMessage := ""
    isConnected := false
    isLoading := false
    quickQueries := []
    sessionId := "session_" ++ toString startTime }

/-- Payload of an inbound `response` socket event. -/
structure ResponsePayload where
  response : String
  timestamp : String
  metadata : Option MessageMetadata
  suggestions : Option (List String)
deriving DecidableEq, Repr

/-- Payload of an inbound `error` socket event. -/
structure ErrorPayload where
  error : String
  timestamp : String
deriving DecidableEq, Repr

/-- Payload of the outbound `message` socket event emitted by
`sendMessage`. -/
structure OutboundMessage where
  message : String
  session_id : String
  include_metrics : Bool
  include_logs : Bool
  include_traces : Bool
  time_range : String
deriving DecidableEq, Repr

/-- Handler of `socket.on('response', ...)`: clears `isLoading` and
appends one assistant message with `id = Date.now()`, the payload's
`response` as content, and the payload's `metadata`/`suggestions`. -/
def onResponse (now : Nat) (data : ResponsePayload) (s : ClientState) : ClientState :=
  { s with
    isLoading := false
    messages := s.messages ++
      [{ id := now
         kind := .assistant
         content := data.response
         timestamp := .fromStr data.timestamp
         metadata := data.metadata
         suggestions := data.suggestions }] }

/-- Handler of `socket.on('error', ...)`: clears `isLoading` and appends
one error message with content `"Error: " + data.error`; the JS object
carries no `metadata`/`suggestions` keys. -/
def onError (now : Nat) (data : ErrorPayload) (s : ClientState) : ClientState :=
  { s with
    isLoading := false
    messages := s.messages ++
      [{ id := now
         kind := .error
         content := "Error: " ++ data.error
         timestamp := .fromStr data.timestamp
         metadata := none
         suggestions := none }] }

/-- JS `String.prototype.trim`: strip leading and trailing whitespace.
Rendered over the character list so that it evaluates by reduction. -/
def jsTrim (s : String) : String :=
  String.mk
    (((s.data.dropWhile Char.isWhitespace).reverse.dropWhile
        Char.isWhitespace).reverse)

/-- `sendMessage(message)`: returns early (no state change, no emit) when
`!message.trim() || !isConnected`; otherwise appends the user message,
sets `isLoading`, emits the `message` event with the fixed flags and the
session id, and clears the input field.  The returned `Option` is the
emitted socket event, `none` when nothing was sent. -/
def sendMessage (message : String) (now : Nat) (s : ClientState) :
    ClientState × Option OutboundMessage :=
  if jsTrim message = "" ∨ s.isConnected = false then
    (s, none)
  else
    ({ s with
        messages := s.messages ++
          [{ id := now
             kind := .user
             content := message
             timestamp := .atNow now
             metadata := none
             suggestions := none }]
        isLoading := true
        inputMessage := "" },
     some
       { message := message
         session_id := s.sessionId
         include_metrics := true
         include_logs := true
         include_traces := true
         time_range := "1h" })

/-- `handleQuickQuery(query)`: both quick-query cards and suggestion
chips call `sendMessage(query)` directly. -/
def handleQuickQuery (query : String) (now : Nat) (s : ClientState) :
    ClientState × Option OutboundMessage :=
  sendMessage query now s

/-- `loadQuickQueries`: on a successful fetch stores the returned array;
the `catch` branch only logs, leaving the state untouched (no exception
escapes the handler). -/
def loadQuickQueries (result : Except String (List QuickQuery)) (s : ClientState) :
    ClientState :=
  match result with
  | .ok data => { s with quickQueries := data }
  | .error _ => s

/-- The body of the `reduce` in `quickQueryCategories`: if no bucket for
`q.category` exists yet, create an empty one at the end (JS plain-object
string keys keep insertion order), then push `q` onto its bucket. -/
def insertQuery (acc : List (String × List QuickQuery)) (q : QuickQuery) :
    List (String × List QuickQuery) :=
  let acc' := if acc.any (fun p => p.1 = q.category) then acc
              else acc ++ [(q.category, [])]
  acc'.map (fun p => if p.1 = q.category then (p.1, p.2 ++ [q]) else p)

/-- `quickQueryCategories`: `quickQueries.reduce(..., {})`, grouping the
fetched list by category into an insertion-ordered map. -/
def quickQueryCategories (qs : List QuickQuery) : List (String × List QuickQuery) :=
  qs.foldl insertQuery []

/-- Categories of a quick-query list in first-seen order (specification
side of the grouping claim). -/
def firstSeenCategories (qs : List QuickQuery) : List String :=
  qs.foldl (fun ks q => if q.category ∈ ks then ks else ks ++ [q.category]) []

/-- Declarative description of the grouping used to state claim C3:
keys in first-seen category order, each bucket the order-preserving
filter of the input by that category. -/
def groupedByCategorySpec (qs : List QuickQuery) : List (String × List QuickQuery) :=
  (firstSeenCategories qs).map (fun c => (c, qs.filter (fun q => q.category = c)))

/-- All state-changing operations of the client, with the `Date.now()`
reading at which each handler runs. -/
inductive ClientEvent where
  | connected
  | disconnected
  | response (now : Nat) (data : ResponsePayload)
  | errorEvt (now : Nat) (data : ErrorPayload)
  | submit (now : Nat) (text : String)
  | quickQueriesLoaded (result : Except String (List QuickQuery))
  | setInput (text : String)

/-- One step of the client: dispatch an event to its handler. -/
def step (s : ClientState) (e : ClientEvent) : ClientState :=
  match e with
  | .connected => { s with isConnected := true }
  | .disconnected => { s with isConnected := false }
  | .response now d => onResponse now d s
  | .errorEvt now d => onError now d s
  | .submit now text => (sendMessage text now s).1
  | .quickQueriesLoaded r => loadQuickQueries r s
  | .setInput t => { s with inputMessage := t }

/-- The reachable state after a sequence of events from startup. -/
def run (startTime : Nat) (evts : List ClientEvent) : ClientState :=
  evts.foldl step (initState startTime)

/-- The `Date.now()` reading consumed by an event, when it has one
(exactly the events whose handlers may append a message). -/
def evtNow : ClientEvent → Option Nat
  | .response n _ => some n
  | .errorEvt n _ => some n
  | .submit n _ => some n
  | _ => none

/-- A concrete connected state that is already awaiting a response, for
exercising the theorems at explicit inputs. -/
def busyState : ClientState :=
  { messages := []
    inputMessage := ""
    isConnected := true
    isLoading := true
    quickQueries := []
    sessionId := "session_0" }

/-- A concrete connected idle state, for exercising the theorems at
explicit inputs. -/
def connState : ClientState :=
  { messages := []
    inputMessage := ""
    isConnected := true
    isLoading := false
    quickQueries := []
    sessionId := "session_2" }

/-- C1: handling a `response` event appends exactly one assistant-kind
message whose content is the payload's `response` field and whose
`metadata` and `suggestions` are the payload's optional fields; the rest
of the Message Log is unchanged. -/
theorem response_appends_one_assistant (now : Nat) (d : ResponsePayload) (s : ClientState) :
    (onResponse now d s).messages =
      s.messages ++
        [{ id := now
           kind := .assistant
           content := d.response
           timestamp := .fromStr d.timestamp
           metadata := d.metadata
           suggestions := d.suggestions }] := rfl

/-- C2: handling an `error` event appends exactly one error-kind message
whose content is `"Error: "` concatenated with the payload's `error`
field; the rest of the Message Log is unchanged. -/
theorem error_appends_one_error (now : Nat) (d : ErrorPayload) (s : ClientState) :
    (onError now d s).messages =
      s.messages ++
        [{ id := now
           kind := .error
           content := "Error: " ++ d.error
           timestamp := .fromStr d.timestamp
           metadata := none
           suggestions := none }] := rfl

/-- Membership in the category accumulator of `firstSeenCategories`. -/
theorem mem_foldl_insCat (qs : List QuickQuery) : ∀ (ks : List String) (x : String),
    (x ∈ qs.foldl
        (fun ks q => if q.category ∈ ks then ks else ks ++ [q.category]) ks) ↔
      x ∈ ks ∨ ∃ q ∈ qs, q.category = x := by
  induction qs with
  | nil => simp
  | cons q qs ih =>
    intro ks x
    rw [List.foldl_cons, ih]
    by_cases h : q.category ∈ ks
    · rw [if_pos h]
      constructor
      · rintro (hk | ⟨q', hq', hx⟩)
        · exact Or.inl hk
        · exact Or.inr ⟨q', List.mem_cons_of_mem _ hq', hx⟩
      · rintro (hk | ⟨q', hq', hx⟩)
        · exact Or.inl hk
        · rcases List.mem_cons.mp hq' with rfl | hq'
          · exact Or.inl (hx ▸ h)
          · exact Or.inr ⟨q', hq', hx⟩
    · rw [if_neg h]
      constructor
      · rintro (hk | ⟨q', hq', hx⟩)
        · rcases List.mem_append.mp hk with hk | hk
          · exact Or.inl hk
          · exact Or.inr ⟨q, List.mem_cons_self _ _,
              (List.mem_singleton.mp hk).symm⟩
        · exact Or.inr ⟨q', List.mem_cons_of_mem _ hq', hx⟩
      · rintro (hk | ⟨q', hq', hx⟩)
        · exact Or.inl (List.mem_append.mpr (Or.inl hk))
        · rcases List.mem_cons.mp hq' with rfl | hq'
          · exact Or.inl (List.mem_append.mpr (Or.inr (List.mem_singleton.mpr hx.symm)))
          · exact Or.inr ⟨q', hq', hx⟩

/-- A category is in `firstSeenCategories qs` exactly when some query of
`qs` carries it. -/
theorem mem_firstSeenCategories (qs : List QuickQuery) (x : String) :
    x ∈ firstSeenCategories qs ↔ ∃ q ∈ qs, q.category = x := by
  unfold firstSeenCategories
  rw [mem_foldl_insCat]
  simp

/-- `firstSeenCategories` over a snoc: append the category iff unseen. -/
theorem firstSeenCategories_snoc (qs : List QuickQuery) (q : QuickQuery) :
    firstSeenCategories (qs ++ [q]) =
      if q.category ∈ firstSeenCategories qs then firstSeenCategories qs
      else firstSeenCategories qs ++ [q.category] := by
  unfold firstSeenCategories
  rw [List.foldl_append, List.foldl_cons, List.foldl_nil]

/-- One `insertQuery` step on the declarative grouping equals the
declarative grouping of the snoc. -/
theorem insertQuery_groupedByCategorySpec (qs : List QuickQuery) (q : QuickQuery) :
    insertQuery (groupedByCategorySpec qs) q = groupedByCategorySpec (qs ++ [q]) := by
  have hkeys : ∀ p ∈ groupedByCategorySpec qs, p.1 ∈ firstSeenCategories qs := by
    intro p hp
    rcases List.mem_map.mp hp with ⟨c, hc, rfl⟩
    exact hc
  by_cases hmem : q.category ∈ firstSeenCategories qs
  · have hany : (groupedByCategorySpec qs).any (fun p => p.1 = q.category) = true := by
      rw [List.any_eq_true]
      refine ⟨(q.category, qs.filter (fun q' => q'.category = q.category)), ?_, by simp⟩
      exact List.mem_map.mpr ⟨q.category, hmem, rfl⟩
    unfold insertQuery
    rw [hany]
    simp only [if_true]
    unfold groupedByCategorySpec
    rw [firstSeenCategories_snoc, if_pos hmem, List.map_map]
    apply List.map_congr_left
    intro c hc
    by_cases hcq : c = q.category
    · subst hcq
      simp [List.filter_append]
    · simp only [Function.comp_apply, List.filter_append]
      rw [if_neg hcq]
      have : [q].filter (fun q' => q'.category = c) = [] := by
        simp only [List.filter_eq_nil_iff, List.mem_singleton]
        rintro a rfl
        simpa using fun h => hcq h.symm
      rw [this, List.append_nil]
  · have hany : (groupedByCategorySpec qs).any (fun p => p.1 = q.category) = false := by
      rw [List.any_eq_false]
      intro p hp
      simp only [decide_eq_true_eq]
      intro hpq
      exact hmem (hpq ▸ hkeys p hp)
    unfold insertQuery
    rw [hany]
    simp only [Bool.false_eq_true, if_false]
    rw [List.map_append]
    unfold groupedByCategorySpec
    rw [firstSeenCategories_snoc, if_neg hmem, List.map_append]
    congr 1
    · rw [List.map_map]
      have hid : ∀ c ∈ firstSeenCategories qs,
          ((fun p => if p.1 = q.category then (p.1, p.2 ++ [q]) else p) ∘
            (fun c => (c, qs.filter (fun q' => q'.category = c)))) c =
            (c, (qs ++ [q]).filter (fun q' => q'.category = c)) := by
        intro c hc
        have hcq : c ≠ q.category := fun h => hmem (h ▸ hc)
        simp only [Function.comp_apply, List.filter_append]
        rw [if_neg hcq]
        have : [q].filter (fun q' => q'.category = c) = [] := by
          simp only [List.filter_eq_nil_iff, List.mem_singleton]
          rintro a rfl
          simpa using fun h => hcq h.symm
        rw [this, List.append_nil]
      exact List.map_congr_left hid
    · have hempty : qs.filter (fun q' => q'.category = q.category) = [] := by
        rw [List.filter_eq_nil_iff]
        intro a ha
        simp only [decide_eq_true_eq]
        intro hcat
        exact hmem ((mem_firstSeenCategories qs q.category).mpr ⟨a, ha, hcat⟩)
      simp [List.filter_append, hempty]

/-- C3: the `reduce`-based grouping equals the declarative grouping
(keys in first-seen category order, per-category buckets the
order-preserving filter of the input), and on Scenario C's input it
yields exactly `performance ↦ [Q1, Q2], monitoring ↦ [Q3]` in that key
and element order. -/
theorem grouping_partitions_by_category :
    (∀ qs, quickQueryCategories qs = groupedByCategorySpec qs) ∧
      quickQueryCategories
          [{ query := "Q1", category := "performance", description := "d1" },
           { query := "Q2", category := "performance", description := "d2" },
           { query := "Q3", category := "monitoring", description := "d3" }] =
        [("performance",
            [{ query := "Q1", category := "performance", description := "d1" },
             { query := "Q2", category := "performance", description := "d2" }]),
         ("monitoring",
            [{ query := "Q3", category := "monitoring", description := "d3" }])] := by
  constructor
  · intro qs
    induction qs using List.reverseRecOn with
    | nil => rfl
    | append_singleton xs x ih =>
        unfold quickQueryCategories
        rw [List.foldl_append, List.foldl_cons, List.foldl_nil]
        show insertQuery (quickQueryCategories xs) x = _
        rw [ih, insertQuery_groupedByCategorySpec]
  · decide

/-- C4: submitting an empty or whitespace-only string changes nothing:
`sendMessage` returns early, appending no user message and emitting no
channel event. -/
theorem empty_submit_is_noop (msg : String) (now : Nat) (s : ClientState)
    (h : jsTrim msg = "") :
    sendMessage msg now s = (s, none) := by
  unfold sendMessage
  rw [if_pos (Or.inl h)]

/-- Witness for C4 at the concrete whitespace-only input `"  "`, in a
connected state (so the early return is due to the blank text alone). -/
theorem empty_submit_is_noop_witness :
    jsTrim "  " = "" ∧ sendMessage "  " 7 connState = (connState, none) :=
  ⟨by decide, empty_submit_is_noop "  " 7 connState (by decide)⟩

/-- C5: submitting while the channel is disconnected changes nothing:
`sendMessage` returns early, emitting no channel event and appending no
message. -/
theorem disconnected_submit_is_noop (msg : String) (now : Nat) (s : ClientState)
    (h : s.isConnected = false) :
    sendMessage msg now s = (s, none) := by
  unfold sendMessage
  rw [if_pos (Or.inr h)]

/-- Witness for C5: a non-blank submission in the (disconnected) initial
state. -/
theorem disconnected_submit_is_noop_witness :
    (initState 0).isConnected = false ∧
      sendMessage "show cpu" 3 (initState 0) = (initState 0, none) :=
  ⟨rfl, disconnected_submit_is_noop "show cpu" 3 (initState 0) rfl⟩

/-- C6: every client operation only ever extends the Message Log at its
end: the previous log is a prefix of the new one, so every existing
message keeps its content, kind and position. -/
theorem log_append_only (s : ClientState) (e : ClientEvent) :
    ∃ t, (step s e).messages = s.messages ++ t := by
  cases e with
  | connected => exact ⟨[], (List.append_nil _).symm⟩
  | disconnected => exact ⟨[], (List.append_nil _).symm⟩
  | response now d => exact ⟨_, rfl⟩
  | errorEvt now d => exact ⟨_, rfl⟩
  | submit now text =>
      show ∃ t, (sendMessage text now s).1.messages = s.messages ++ t
      unfold sendMessage
      split
      · exact ⟨[], (List.append_nil _).symm⟩
      · exact ⟨_, rfl⟩
  | quickQueriesLoaded r =>
      cases r with
      | ok data => exact ⟨[], (List.append_nil _).symm⟩
      | error err => exact ⟨[], (List.append_nil _).symm⟩
  | setInput t => exact ⟨[], (List.append_nil _).symm⟩

/-- C7 counterexample: message identifiers are `Date.now()` readings, so
two `response` events handled at the same millisecond yield a reachable
state whose two messages share the identifier `5` — the claim that any
two distinct messages have distinct identifiers is false. -/
theorem message_ids_can_collide :
    ¬(((run 0
          [ClientEvent.response 5
            { response := "a", timestamp := "t", metadata := none,
              suggestions := none },
           ClientEvent.response 5
            { response := "b", timestamp := "t", metadata := none,
              suggestions := none }]).messages.map
        (fun m => m.id)).Nodup) := by decide

/-- Every step extends the id list of the Message Log by at most the
event's `Date.now()` reading, consuming the head of the pending clock
readings, so a strictly increasing combined list stays strictly
increasing. -/
theorem foldl_step_ids_pairwise :
    ∀ (evts : List ClientEvent) (s : ClientState),
      ((s.messages.map (fun m => m.id)) ++ evts.filterMap evtNow).Pairwise (· < ·) →
      (((evts.foldl step s).messages).map (fun m => m.id)).Pairwise (· < ·) := by
  intro evts
  induction evts with
  | nil =>
      intro s h
      simpa using h
  | cons e evts ih =>
      intro s h
      rw [List.foldl_cons]
      apply ih
      cases e with
      | connected => simpa [step, List.filterMap_cons, evtNow] using h
      | disconnected => simpa [step, List.filterMap_cons, evtNow] using h
      | response n d =>
          simp only [step, onResponse, List.map_append, List.filterMap_cons,
            evtNow, List.append_assoc] at h ⊢
          simpa using h
      | errorEvt n d =>
          simp only [step, onError, List.map_append, List.filterMap_cons,
            evtNow, List.append_assoc] at h ⊢
          simpa using h
      | submit n text =>
          simp only [step, List.filterMap_cons, evtNow] at h ⊢
          unfold sendMessage
          split
          · exact h.sublist
              ((List.sublist_cons_self n (evts.filterMap evtNow)).append_left _)
          · simpa [List.append_assoc] using h
      | quickQueriesLoaded r =>
          cases r with
          | ok data => simpa [step, loadQuickQueries, List.filterMap_cons, evtNow] using h
          | error err => simpa [step, loadQuickQueries, List.filterMap_cons, evtNow] using h
      | setInput t => simpa [step, List.filterMap_cons, evtNow] using h

/-- C7 amended: each appended message's identifier is the `Date.now()`
reading of its handler, so identifiers are unique whenever the clock
readings of the message-handling events are strictly increasing; with a
repeated reading, distinct messages can share an identifier. -/
theorem message_ids_unique_of_increasing_clock (startTime : Nat)
    (evts : List ClientEvent)
    (h : (evts.filterMap evtNow).Pairwise (· < ·)) :
    (((run startTime evts).messages).map (fun m => m.id)).Nodup := by
  have hp : (((evts.foldl step (initState startTime)).messages).map
      (fun m => m.id)).Pairwise (· < ·) := by
    apply foldl_step_ids_pairwise
    simpa [initState] using h
  exact hp.imp Nat.ne_of_lt

/-- Witness for the amended C7: two inbound events at strictly
increasing clock readings produce distinct identifiers. -/
theorem message_ids_unique_of_increasing_clock_witness :
    (([ClientEvent.response 1
          { response := "a", timestamp := "t", metadata := none,
            suggestions := none },
        ClientEvent.errorEvt 2
          { error := "b", timestamp := "t" }].filterMap evtNow).Pairwise
        (· < ·)) ∧
      (((run 0
            [ClientEvent.response 1
              { response := "a", timestamp := "t", metadata := none,
                suggestions := none },
             ClientEvent.errorEvt 2
              { error := "b", timestamp := "t" }]).messages).map
          (fun m => m.id)).Nodup :=
  ⟨by decide,
    message_ids_unique_of_increasing_clock 0
      [ClientEvent.response 1
        { response := "a", timestamp := "t", metadata := none,
          suggestions := none },
       ClientEvent.errorEvt 2 { error := "b", timestamp := "t" }]
      (by decide)⟩

/-- C8: a successful submission (non-blank text while connected) sets the
pending-exchange flag (`isLoading = true`, i.e. Awaiting Response), and a
`response` or `error` event clears it back to Idle.  The theorem places
no constraint on `s.isLoading`, so it applies in particular to a
submission made while already Awaiting Response: the core `sendMessage`
does not reject it — it still appends the user message and emits the
channel event. -/
theorem pending_exchange_lifecycle (s : ClientState) (msg : String) (now : Nat)
    (d : ResponsePayload) (ed : ErrorPayload)
    (hmsg : jsTrim msg ≠ "") (hconn : s.isConnected = true) :
    (sendMessage msg now s).1.isLoading = true ∧
      (onResponse now d s).isLoading = false ∧
      (onError now ed s).isLoading = false ∧
      (sendMessage msg now s).1.messages =
        s.messages ++
          [{ id := now
             kind := .user
             content := msg
             timestamp := .atNow now
             metadata := none
             suggestions := none }] ∧
      (sendMessage msg now s).2 =
        some
          { message := msg
            session_id := s.sessionId
            include_metrics := true
            include_logs := true
            include_traces := true
            time_range := "1h" } := by
  have hguard : ¬(jsTrim msg = "" ∨ s.isConnected = false) := by
    rintro (h | h)
    · exact hmsg h
    · rw [hconn] at h; cases h
  unfold sendMessage
  rw [if_neg hguard]
  exact ⟨rfl, rfl, rfl, rfl, rfl⟩

/-- Witness for C8: `busyState` is connected and already Awaiting
Response (`isLoading = true`), yet its submission is still accepted. -/
theorem pending_exchange_lifecycle_witness :
    (jsTrim "hi" ≠ "" ∧ busyState.isConnected = true ∧
        busyState.isLoading = true) ∧
      (sendMessage "hi" 9 busyState).2 =
        some
          { message := "hi"
            session_id := busyState.sessionId
            include_metrics := true
            include_logs := true
            include_traces := true
            time_range := "1h" } :=
  ⟨⟨by decide, rfl, rfl⟩,
    (pending_exchange_lifecycle busyState "hi" 9
        { response := "r", timestamp := "t", metadata := none, suggestions := none }
        { error := "e", timestamp := "t" } (by decide) rfl).2.2.2.2⟩

/-- C9: a failed quick-query load leaves the whole client state — in
particular the catalog — unchanged (empty when nothing was loaded
before, since the initial catalog is empty; otherwise the previously
loaded list is preserved).  The handler is total: the JS `catch` only
logs, so no exception reaches the caller. -/
theorem quick_query_load_failure_keeps_state (err : String) (s : ClientState)
    (startTime : Nat) :
    loadQuickQueries (Except.error err) s = s ∧
      (initState startTime).quickQueries = [] := ⟨rfl, rfl⟩

/-- C10: whenever `sendMessage` emits a channel event, the payload
carries `include_metrics = include_logs = include_traces = true`,
`time_range = "1h"` and `session_id` equal to the state's session
identifier; that identifier is set once at startup and preserved by
every client operation, and quick-query clicks and suggestion clicks go
through the very same `sendMessage`, so every emission path carries the
same fields. -/
theorem emitted_payload_fields (msg : String) (now : Nat) (s : ClientState)
    (ev : OutboundMessage) (h : (sendMessage msg now s).2 = some ev) :
    ev.include_metrics = true ∧ ev.include_logs = true ∧
      ev.include_traces = true ∧ ev.time_range = "1h" ∧
      ev.session_id = s.sessionId ∧ ev.message = msg ∧
      (∀ e, (step s e).sessionId = s.sessionId) ∧
      (∀ startTime, (initState startTime).sessionId =
        "session_" ++ toString startTime) ∧
      (∀ q, handleQuickQuery q now s = sendMessage q now s) := by
  have hpreserve : ∀ e, (step s e).sessionId = s.sessionId := by
    intro e
    cases e with
    | connected => rfl
    | disconnected => rfl
    | response now d => rfl
    | errorEvt now d => rfl
    | submit now text =>
        show (sendMessage text now s).1.sessionId = s.sessionId
        unfold sendMessage
        split
        · rfl
        · rfl
    | quickQueriesLoaded r => cases r <;> rfl
    | setInput t => rfl
  unfold sendMessage at h
  split at h
  · cases h
  · cases h
    exact ⟨rfl, rfl, rfl, rfl, rfl, rfl, hpreserve, fun _ => rfl, fun _ => rfl⟩

/-- Witness for C10: the concrete connected state `connState` emitting
an event. -/
theorem emitted_payload_fields_witness :
    ((sendMessage "cpu" 4 connState).2 =
        some
          { message := "cpu"
            session_id := "session_2"
            include_metrics := true
            include_logs := true
            include_traces := true
            time_range := "1h" }) ∧
      ({ message := "cpu", session_id := "session_2", include_metrics := true,
          include_logs := true, include_traces := true,
          time_range := "1h" } : OutboundMessage).include_metrics = true :=
  ⟨by decide,
    (emitted_payload_fields "cpu" 4 connState
      { message := "cpu", session_id := "session_2", include_metrics := true,
        include_logs := true, include_traces := true, time_range := "1h" }
      (by decide)).1⟩

end ChatInterface
